import Mathlib

/-!
Verification of the CarsComScraper repository: shallow embedding of the
pure control flow and data shaping of the scraper scripts
(`scraper_single_page2.py`, `car.com_updated.py`), the CSV post-processing
scripts (`merge.py`, `merge_unique.py`, `remove_null.py`) and the cleaning
tool (`blackbox.py`), together with theorems about the claims made by the
repository specification.

Browser and file-system effects are abstracted as environment parameters:
the outcome of the try-block of one scrape attempt becomes a function
`Nat → Option Nat` (attempt number to `some recordCount` on success,
`none` on exception), the dealer cards found for a ZIP become
`String → List DealerRec`, and so on.  Everything else is translated
directly from the Python source.
-/

set_option autoImplicit false

/-! ### Report rows (`report_list` entries of both scraper scripts)

A report row as appended to `report_list` in `scrape_zip`
(scraper_single_page2.py) and `scrape_zip_batch` (car.com_updated.py).
`time_sec` is the elapsed wall-clock time, abstract here (taken from an
environment function). -/

structure ReportRow where
  zip : String
  records : Nat
  file : String
  time_sec : Nat
  status : String
  attempts : Nat
deriving DecidableEq, Repr

/-- `THREAD_COUNT` of scraper_single_page2.py. -/
def THREAD_COUNT_sp2 : Nat := 10

/-- `MAX_RETRIES` of scraper_single_page2.py. -/
def MAX_RETRIES_sp2 : Nat := 3

/-- `THREAD_COUNT` of car.com_updated.py. -/
def THREAD_COUNT_upd : Nat := 5

/-- `MAX_RETRIES` of car.com_updated.py. -/
def MAX_RETRIES_upd : Nat := 2

/-- `BATCH_SIZE` of car.com_updated.py. -/
def BATCH_SIZE : Nat := 20

/-- Output file path of `scrape_zip` in scraper_single_page2.py:
`os.path.join(f"USA/{state_abbr}", f"{state_abbr}_{zip_code}.csv")`. -/
def sp2_output_file (st zip : String) : String :=
  "USA/" ++ st ++ "/" ++ (st ++ "_" ++ zip ++ ".csv")

/-- Output file path used by car.com_updated.py (both in the report rows of
`scrape_zip_batch` and in the final write of `__main__`):
`os.path.join(f"USA/{state_abbr}", f"{state_abbr}_dealers.csv")`. -/
def upd_output_file (st : String) : String :=
  "USA/" ++ st ++ "/" ++ (st ++ "_dealers.csv")

/-- The retry loop `for attempt in range(1, MAX_RETRIES + 1)` shared by
`scrape_zip` (scraper_single_page2.py) and the inner loop of
`scrape_zip_batch` (car.com_updated.py).  `succ attempt` is the outcome of
the try-block at that attempt (`some n`: the body succeeded having found
`n` dealer records; `none`: an exception was raised), `err attempt` the
exception text, `t attempt` the elapsed time.  The returned list holds the
report rows appended for this ZIP code, in order.  `fuel` counts the
remaining loop iterations; the loop is entered with `attempt = 1` and
`fuel = maxRetries`, matching `range(1, maxRetries + 1)`. -/
def retryRows (maxRetries : Nat) (zip file : String) (succ : Nat → Option Nat)
    (err : Nat → String) (t : Nat → Nat) : Nat → Nat → List ReportRow
  | _, 0 => []
  | attempt, fuel + 1 =>
    match succ attempt with
    | some n => [⟨zip, n, file, t attempt, "success", attempt⟩]
    | none =>
      if attempt = maxRetries then
        [⟨zip, 0, "ERROR", t attempt, "failed (" ++ err attempt ++ ")", attempt⟩]
      else
        retryRows maxRetries zip file succ err t (attempt + 1) fuel

/-- Report rows appended by one call of `scrape_zip zip_code state_abbr ...`
in scraper_single_page2.py (on success the row's `file` is the per-ZIP CSV
path, `records` the length of `all_dealers`). -/
def scrape_zip_rows (st zip : String) (succ : Nat → Option Nat)
    (err : Nat → String) (t : Nat → Nat) : List ReportRow :=
  retryRows MAX_RETRIES_sp2 zip (sp2_output_file st zip) succ err t 1 MAX_RETRIES_sp2

/-- Report rows appended by `scrape_zip_batch zip_codes state_abbr ...` in
car.com_updated.py: the outer `for zip_code in zip_codes` loop runs the
same retry loop for each ZIP of the batch, with the shared state CSV path
in the success rows.  `succ`, `err` and `t` are per-ZIP environments. -/
def scrape_zip_batch_rows (st : String) (succ : String → Nat → Option Nat)
    (err : String → Nat → String) (t : String → Nat → Nat)
    (zips : List String) : List ReportRow :=
  zips.flatMap fun z =>
    retryRows MAX_RETRIES_upd z (upd_output_file st) (succ z) (err z) (t z) 1 MAX_RETRIES_upd

/-! ### Helper lemmas about the retry loop -/

theorem retryRows_succ (maxRetries : Nat) (zip file : String)
    (succ : Nat → Option Nat) (err : Nat → String) (t : Nat → Nat)
    (a fuel n : Nat) (h : succ a = some n) :
    retryRows maxRetries zip file succ err t a (fuel + 1) =
      [⟨zip, n, file, t a, "success", a⟩] := by
  simp [retryRows, h]

theorem retryRows_reach (maxRetries : Nat) (zip file : String)
    (succ : Nat → Option Nat) (err : Nat → String) (t : Nat → Nat)
    (k n : Nat) (hsucc : succ k = some n) (hkR : k ≤ maxRetries) :
    ∀ fuel a, a + fuel = maxRetries + 1 → a ≤ k →
      (∀ j, a ≤ j → j < k → succ j = none) →
      retryRows maxRetries zip file succ err t a fuel =
        [⟨zip, n, file, t k, "success", k⟩] := by
  intro fuel
  induction fuel with
  | zero =>
    intro a ha hak _
    omega
  | succ f ih =>
    intro a ha hak hfail
    rcases Nat.eq_or_lt_of_le hak with rfl | hlt
    · exact retryRows_succ maxRetries zip file succ err t a f n hsucc
    · have hfa : succ a = none := hfail a le_rfl hlt
      have haR : a ≠ maxRetries := by omega
      simp only [retryRows, hfa, if_neg haR]
      exact ih (a + 1) (by omega) (by omega) (fun j hj hjk => hfail j (by omega) hjk)

theorem retryRows_allFail (maxRetries : Nat) (zip file : String)
    (succ : Nat → Option Nat) (err : Nat → String) (t : Nat → Nat)
    (hfail : ∀ j, 1 ≤ j → j ≤ maxRetries → succ j = none) :
    ∀ fuel a, a + fuel = maxRetries + 1 → 1 ≤ a → a ≤ maxRetries →
      retryRows maxRetries zip file succ err t a fuel =
        [⟨zip, 0, "ERROR", t maxRetries,
          "failed (" ++ err maxRetries ++ ")", maxRetries⟩] := by
  intro fuel
  induction fuel with
  | zero => intro a ha h1 hle; omega
  | succ f ih =>
    intro a ha h1 hle
    have hfa : succ a = none := hfail a h1 hle
    by_cases haR : a = maxRetries
    · subst haR
      simp [retryRows, hfa]
    · simp only [retryRows, hfa, if_neg haR]
      exact ih (a + 1) (by omega) (by omega) (by omega)

/-- C1: For every ZIP code taken from the work queue, `scrape_zip`
(scraper_single_page2.py) and `scrape_zip_batch` (car.com_updated.py)
attempt it at most `MAX_RETRIES` times; if some attempt succeeds, exactly
one report row with status `"success"` and `attempts` equal to the
succeeding attempt number is appended and no further attempt is made; if
every attempt fails, exactly one report row with `records 0`, file
`"ERROR"`, a status beginning with `"failed"` and `attempts = MAX_RETRIES`
is appended, and processing continues with the next ZIP code. -/
theorem c1_retry_report (st z : String) (succ : Nat → Option Nat)
    (err : Nat → String) (t : Nat → Nat)
    (succB : String → Nat → Option Nat) (errB : String → Nat → String)
    (tB : String → Nat → Nat) (zips : List String) :
    (∀ k n, 1 ≤ k → k ≤ MAX_RETRIES_sp2 → succ k = some n →
      (∀ j, 1 ≤ j → j < k → succ j = none) →
      scrape_zip_rows st z succ err t =
        [⟨z, n, sp2_output_file st z, t k, "success", k⟩]) ∧
    ((∀ j, 1 ≤ j → j ≤ MAX_RETRIES_sp2 → succ j = none) →
      scrape_zip_rows st z succ err t =
        [⟨z, 0, "ERROR", t MAX_RETRIES_sp2,
          "failed (" ++ err MAX_RETRIES_sp2 ++ ")", MAX_RETRIES_sp2⟩]) ∧
    (∀ k n, 1 ≤ k → k ≤ MAX_RETRIES_upd → succB z k = some n →
      (∀ j, 1 ≤ j → j < k → succB z j = none) →
      scrape_zip_batch_rows st succB errB tB [z] =
        [⟨z, n, upd_output_file st, tB z k, "success", k⟩]) ∧
    ((∀ j, 1 ≤ j → j ≤ MAX_RETRIES_upd → succB z j = none) →
      scrape_zip_batch_rows st succB errB tB [z] =
        [⟨z, 0, "ERROR", tB z MAX_RETRIES_upd,
          "failed (" ++ errB z MAX_RETRIES_upd ++ ")", MAX_RETRIES_upd⟩]) ∧
    scrape_zip_batch_rows st succB errB tB (z :: zips) =
      scrape_zip_batch_rows st succB errB tB [z] ++
        scrape_zip_batch_rows st succB errB tB zips := by
  refine ⟨?_, ?_, ?_, ?_, ?_⟩
  · intro k n hk1 hkR hsucc hfail
    exact retryRows_reach MAX_RETRIES_sp2 z (sp2_output_file st z) succ err t
      k n hsucc hkR MAX_RETRIES_sp2 1 rfl hk1
      (fun j hj hjk => hfail j hj hjk)
  · intro hfail
    exact retryRows_allFail MAX_RETRIES_sp2 z (sp2_output_file st z) succ err t
      hfail MAX_RETRIES_sp2 1 rfl le_rfl (by decide)
  · intro k n hk1 hkR hsucc hfail
    simp only [scrape_zip_batch_rows, List.flatMap_cons, List.flatMap_nil,
      List.append_nil]
    exact retryRows_reach MAX_RETRIES_upd z (upd_output_file st) (succB z)
      (errB z) (tB z) k n hsucc hkR MAX_RETRIES_upd 1 rfl hk1
      (fun j hj hjk => hfail j hj hjk)
  · intro hfail
    simp only [scrape_zip_batch_rows, List.flatMap_cons, List.flatMap_nil,
      List.append_nil]
    exact retryRows_allFail MAX_RETRIES_upd z (upd_output_file st) (succB z)
      (errB z) (tB z) hfail MAX_RETRIES_upd 1 rfl le_rfl (by decide)
  · simp [scrape_zip_batch_rows]

/-- Concrete instantiation of `c1_retry_report`: a ZIP whose second attempt
succeeds with 5 records yields exactly its success row with
`attempts = 2`, and a ZIP whose attempts all fail yields exactly the
failed row with `attempts = MAX_RETRIES`. -/
theorem c1_retry_report_witness :
    scrape_zip_rows "AZ" "85001" (fun a => if a = 2 then some 5 else none)
        (fun _ => "timeout") (fun _ => 7) =
      [⟨"85001", 5, sp2_output_file "AZ" "85001", 7, "success", 2⟩] ∧
    scrape_zip_rows "AZ" "85002" (fun _ => none) (fun _ => "timeout")
        (fun _ => 9) =
      [⟨"85002", 0, "ERROR", 9, "failed (timeout)", 3⟩] ∧
    scrape_zip_batch_rows "AZ" (fun _ _ => none) (fun _ _ => "timeout")
        (fun _ _ => 4) ["85001"] =
      [⟨"85001", 0, "ERROR", 4, "failed (timeout)", 2⟩] := by
  refine ⟨?_, ?_, ?_⟩
  · exact (c1_retry_report "AZ" "85001" (fun a => if a = 2 then some 5 else none)
      (fun _ => "timeout") (fun _ => 7) (fun _ _ => none) (fun _ _ => "")
      (fun _ _ => 0) []).1 2 5 (by decide) (by decide) rfl
      (by intro j h1 h2; have hj : j = 1 := by omega
          subst hj; rfl)
  · exact (c1_retry_report "AZ" "85002" (fun _ => none) (fun _ => "timeout")
      (fun _ => 9) (fun _ _ => none) (fun _ _ => "") (fun _ _ => 0) []).2.1
      (fun _ _ _ => rfl)
  · exact (c1_retry_report "AZ" "85001" (fun _ => none) (fun _ => "")
      (fun _ => 0) (fun _ _ => none) (fun _ _ => "timeout")
      (fun _ _ => 4) []).2.2.2.1 (fun _ _ _ => rfl)

/-! ### Python string primitives used by the scripts -/

/-- Python `str.strip()`: remove leading and trailing whitespace. -/
def pyStrip (s : String) : String :=
  ⟨((s.data.dropWhile Char.isWhitespace).reverse.dropWhile Char.isWhitespace).reverse⟩

/-- Python `str.upper()` on the ASCII text these scripts handle. -/
def pyUpper (s : String) : String :=
  ⟨s.data.map Char.toUpper⟩

/-! ### Thread spawning and the worker loop (`__main__` of both scripts) -/

/-- Number of worker threads started by `__main__` of either script:
`for _ in range(min(THREAD_COUNT, zip_queue.qsize()))`. -/
def spawn_count (threadCount qsize : Nat) : Nat := min threadCount qsize

/-- `scrape_worker` of scraper_single_page2.py, single-worker view: pulls
ZIP codes from the queue until it is empty, strips each one and scrapes it
when nonblank.  Returns the ZIP codes scraped, in order. -/
def scrape_worker_sp2 : List String → List String
  | [] => []
  | z :: rest =>
    let zc := pyStrip z
    if zc = "" then scrape_worker_sp2 rest else zc :: scrape_worker_sp2 rest

theorem scrape_worker_sp2_eq (queue : List String) :
    scrape_worker_sp2 queue =
      queue.filterMap fun z => if pyStrip z = "" then none else some (pyStrip z) := by
  induction queue with
  | nil => rfl
  | cons z rest ih =>
    by_cases h : pyStrip z = "" <;> simp [scrape_worker_sp2, h, ih]

/-- C3 as stated is false: the spawn loop runs
`min(THREAD_COUNT, qsize)` times, so a queue holding a single ZIP code
spawns 1 thread (not between 5 and 10), and the spawn count changes with
the queue size. -/
theorem c3_counterexample :
    spawn_count THREAD_COUNT_sp2 1 = 1 ∧
    ¬ (5 ≤ spawn_count THREAD_COUNT_sp2 1) ∧
    spawn_count THREAD_COUNT_sp2 1 ≠ spawn_count THREAD_COUNT_sp2 11 ∧
    spawn_count THREAD_COUNT_upd 2 = 2 ∧
    spawn_count THREAD_COUNT_upd 2 ≠ spawn_count THREAD_COUNT_upd 7 := by
  decide

/-- C3 (amended): each script spawns `min(THREAD_COUNT, qsize)` worker
threads, where `THREAD_COUNT` is 10 in scraper_single_page2.py and 5 in
car.com_updated.py (both within 5–10); whenever the queue holds at least
`THREAD_COUNT` ZIP codes the spawn count equals the fixed `THREAD_COUNT`
regardless of the queue size, and each worker pulls from the shared queue
until it is empty — it processes every queue entry, scraping the stripped
nonblank ones in order. -/
theorem c3_thread_spawn (q1 q2 : Nat) (queue : List String)
    (h1 : THREAD_COUNT_sp2 ≤ q1) (h2 : THREAD_COUNT_upd ≤ q2) :
    spawn_count THREAD_COUNT_sp2 q1 = THREAD_COUNT_sp2 ∧
    spawn_count THREAD_COUNT_upd q2 = THREAD_COUNT_upd ∧
    5 ≤ THREAD_COUNT_upd ∧ THREAD_COUNT_upd ≤ 10 ∧
    5 ≤ THREAD_COUNT_sp2 ∧ THREAD_COUNT_sp2 ≤ 10 ∧
    scrape_worker_sp2 queue =
      queue.filterMap (fun z => if pyStrip z = "" then none else some (pyStrip z)) :=
  ⟨Nat.min_eq_left h1, Nat.min_eq_left h2, by decide, by decide, by decide,
    by decide, scrape_worker_sp2_eq queue⟩

/-- Concrete instantiation of `c3_thread_spawn`: with 12 queued ZIP codes
scraper_single_page2.py spawns 10 threads, with 9 car.com_updated.py
spawns 5, and a worker drains a concrete queue completely. -/
theorem c3_thread_spawn_witness :
    spawn_count THREAD_COUNT_sp2 12 = THREAD_COUNT_sp2 ∧
    spawn_count THREAD_COUNT_upd 9 = THREAD_COUNT_upd ∧
    scrape_worker_sp2 [" 85001 ", "", "85002"] = ["85001", "85002"] := by
  have h := c3_thread_spawn 12 9 [" 85001 ", "", "85002"]
    (by decide) (by decide)
  exact ⟨h.1, h.2.1, by decide⟩

/-! ### Skipping already-processed ZIP codes (car.com_updated.py) -/

/-- `get_processed_zips state_abbr` of car.com_updated.py: if
`USA/<STATE>/<STATE>_dealers.csv` exists, collect the first column of
every nonempty row after the header; otherwise the empty set.  The CSV
file content is passed as a list of rows of cells. -/
def get_processed_zips (fileExists : Bool) (csvRows : List (List String)) :
    List String :=
  if fileExists then
    match csvRows with
    | [] => []
    | _header :: rest => rest.filterMap fun row => row.head?
  else []

/-- The skip loop of `__main__` in car.com_updated.py:
`for z in zip_codes: zip_code = z.strip(); if zip_code in processed_zips:
skipped_zips.append(zip_code) else: zip_queue.put(zip_code)`.
Returns `(skipped_zips, queue contents)`. -/
def upd_enqueue (zipCodes processed : List String) :
    List String × List String :=
  zipCodes.foldl
    (fun acc z =>
      let zc := pyStrip z
      if zc ∈ processed then (acc.1 ++ [zc], acc.2) else (acc.1, acc.2 ++ [zc]))
    ([], [])

theorem upd_enqueue_go (processed : List String) (zipCodes : List String) :
    ∀ a b : List String,
      zipCodes.foldl
        (fun acc z =>
          let zc := pyStrip z
          if zc ∈ processed then (acc.1 ++ [zc], acc.2)
          else (acc.1, acc.2 ++ [zc])) (a, b) =
      (a ++ (zipCodes.map pyStrip).filter (fun y => decide (y ∈ processed)),
       b ++ (zipCodes.map pyStrip).filter (fun y => !decide (y ∈ processed))) := by
  induction zipCodes with
  | nil => intro a b; simp
  | cons z rest ih =>
    intro a b
    by_cases h : pyStrip z ∈ processed <;>
      simp [h, ih, List.append_assoc]

theorem upd_enqueue_eq (zipCodes processed : List String) :
    upd_enqueue zipCodes processed =
      ((zipCodes.map pyStrip).filter (fun y => decide (y ∈ processed)),
       (zipCodes.map pyStrip).filter (fun y => !decide (y ∈ processed))) := by
  have h := upd_enqueue_go processed zipCodes [] []
  simpa [upd_enqueue] using h

/-- C4: For every ZIP code of the state's input list, if its stripped form
appears in the first column of the existing
`USA/<STATE>/<STATE>_dealers.csv` then car.com_updated.py does not enqueue
it; every stripped ZIP code not appearing there is enqueued exactly once
per input occurrence (the queue holds exactly the non-processed stripped
entries, in input order). -/
theorem c4_skip_processed (fileExists : Bool) (csvRows : List (List String))
    (zipCodes : List String) :
    (∀ z ∈ zipCodes,
      pyStrip z ∈ get_processed_zips fileExists csvRows →
      pyStrip z ∉ (upd_enqueue zipCodes (get_processed_zips fileExists csvRows)).2) ∧
    (∀ y, y ∉ get_processed_zips fileExists csvRows →
      ((upd_enqueue zipCodes (get_processed_zips fileExists csvRows)).2).count y =
        (zipCodes.map pyStrip).count y) ∧
    (∀ z ∈ zipCodes,
      pyStrip z ∉ get_processed_zips fileExists csvRows →
      pyStrip z ∈ (upd_enqueue zipCodes (get_processed_zips fileExists csvRows)).2) ∧
    (∀ y ∈ (upd_enqueue zipCodes (get_processed_zips fileExists csvRows)).2,
      y ∉ get_processed_zips fileExists csvRows ∧ y ∈ zipCodes.map pyStrip) := by
  set P := get_processed_zips fileExists csvRows with hP
  rw [upd_enqueue_eq]
  refine ⟨?_, ?_, ?_, ?_⟩
  · intro z hz hmem hq
    have := (List.mem_filter.mp hq).2
    simp [hmem] at this
  · intro y hy
    rw [List.count_filter]
    simp [hy]
  · intro z hz hmem
    refine List.mem_filter.mpr ⟨List.mem_map_of_mem pyStrip hz, ?_⟩
    simp [hmem]
  · intro y hy
    have h1 := (List.mem_filter.mp hy).1
    have h2 := (List.mem_filter.mp hy).2
    simp at h2
    exact ⟨h2, h1⟩

/-- Concrete instantiation of `c4_skip_processed`: with an existing state
CSV whose first column holds `85001`, the input list
`[" 85001", "85002", "85002"]` skips `85001` and enqueues `85002` twice
(once per occurrence). -/
theorem c4_skip_processed_witness :
    "85001" ∉ (upd_enqueue [" 85001", "85002", "85002"]
        (get_processed_zips true
          [["Zip", "Business Name"], ["85001", "d1"]])).2 ∧
    ((upd_enqueue [" 85001", "85002", "85002"]
        (get_processed_zips true
          [["Zip", "Business Name"], ["85001", "d1"]])).2).count "85002" = 2 := by
  have h := c4_skip_processed true [["Zip", "Business Name"], ["85001", "d1"]]
    [" 85001", "85002", "85002"]
  constructor
  · have := h.1 " 85001" (by decide) (by decide)
    simpa using this
  · have := h.2.1 "85002" (by decide)
    simpa using this

/-! ### Input loading and validation (`__main__` of both scripts)

The input-loading prefix of each script, before any scraping.  The state
of the file system and the parse outcome are abstracted: `missing` (the
path fails `os.path.isfile` / `os.path.isdir`), `malformed` (the file
exists but `json.load` raises `json.JSONDecodeError`), `parsed entries`
(the JSON object as an association list).  In the source, `json.load` is
called outside any try/except, so a parse error propagates out of the
script as an uncaught exception. -/

inductive InputCase
  | missing
  | malformed
  | parsed (entries : List (String × List String))

/-- Outcome of the input-loading prefix of scraper_single_page2.py. -/
inductive ScriptResult
  | exitMsg (msg : String)
  | uncaughtExn (exn : String)
  | startScraping (st : String) (zips : List String)
deriving DecidableEq, Repr

/-- Lines 138–151 of scraper_single_page2.py: missing file prints and
exits; `json.load` is unprotected, so malformed JSON raises; a parsed
object must have exactly one key, else print and exit; otherwise scraping
starts for the single state. -/
def main_load_sp2 (path : String) : InputCase → ScriptResult
  | .missing => .exitMsg ("File not found: " ++ path)
  | .malformed => .uncaughtExn "json.JSONDecodeError"
  | .parsed entries =>
    match entries with
    | [(st, zs)] => .startScraping st zs
    | _ => .exitMsg "JSON must contain exactly one state abbreviation as key"

/-- One JSON file of the `zipcode` folder in car.com_updated.py. -/
inductive FileCase
  | malformed
  | parsed (entries : List (String × List String))

/-- Outcome of a car.com_updated.py run over the folder's JSON files,
tracking which states were handed to the scraping phase. -/
inductive UpdResult
  | exitMsg (msg : String)
  | uncaughtExn (exn : String) (statesStarted : List String)
  | completed (statesStarted : List String)
deriving DecidableEq, Repr

/-- The `for json_file in json_files` loop of car.com_updated.py:
`json.load` is unprotected, so the first malformed file aborts the whole
run with an uncaught exception; a file whose object does not have exactly
one key is skipped with a warning; otherwise the state is processed and
the loop continues. -/
def upd_main_loop : List FileCase → List String → UpdResult
  | [], done => .completed done
  | .malformed :: _, done => .uncaughtExn "json.JSONDecodeError" done
  | .parsed entries :: rest, done =>
    match entries with
    | [(st, _zs)] => upd_main_loop rest (done ++ [st])
    | _ => upd_main_loop rest done

/-- Lines 156–173 of car.com_updated.py: a missing `zipcode` folder prints
and exits, otherwise the JSON files are processed in order. -/
def upd_main (folderExists : Bool) (files : List FileCase) : UpdResult :=
  if folderExists then upd_main_loop files []
  else .exitMsg "ZIP folder not found: zipcode"

/-- Does the loading prefix end in a printed message and clean exit? -/
def exitsCleanly : ScriptResult → Bool
  | .exitMsg _ => true
  | _ => false

/-- Does the car.com_updated.py run end in a printed message and clean
exit? -/
def exitsCleanlyUpd : UpdResult → Bool
  | .exitMsg _ => true
  | _ => false

/-- C5 as stated is false for malformed JSON: `json.load` is called
outside any try/except in both scripts, so a malformed input JSON raises
an uncaught `json.JSONDecodeError` instead of printing a message and
exiting cleanly. -/
theorem c5_counterexample :
    main_load_sp2 "zipcode/AK.json" .malformed =
      .uncaughtExn "json.JSONDecodeError" ∧
    exitsCleanly (main_load_sp2 "zipcode/AK.json" .malformed) = false ∧
    upd_main true [.malformed] = .uncaughtExn "json.JSONDecodeError" [] ∧
    exitsCleanlyUpd (upd_main true [.malformed]) = false := by
  refine ⟨rfl, rfl, ?_, ?_⟩ <;>
    simp [upd_main, upd_main_loop, exitsCleanlyUpd]

/-- C5 (amended): a missing input file (scraper_single_page2.py) or a
missing `zipcode` folder (car.com_updated.py) makes the script print a
message and exit without beginning any scraping; malformed input JSON
instead raises an uncaught `json.JSONDecodeError` that escapes the script
— still before any scraping begins when it is the first input read; a
parsed JSON object with a number of keys other than one prints a message
and exits (scraper_single_page2.py) or skips that file
(car.com_updated.py). -/
theorem c5_input_validation (path : String) (files : List FileCase) :
    main_load_sp2 path .missing = .exitMsg ("File not found: " ++ path) ∧
    main_load_sp2 path .malformed = .uncaughtExn "json.JSONDecodeError" ∧
    (∀ st zs, main_load_sp2 path (.parsed [(st, zs)]) = .startScraping st zs) ∧
    (∀ entries, entries.length ≠ 1 →
      main_load_sp2 path (.parsed entries) =
        .exitMsg "JSON must contain exactly one state abbreviation as key") ∧
    upd_main false files = .exitMsg "ZIP folder not found: zipcode" ∧
    upd_main true (.malformed :: files) =
      .uncaughtExn "json.JSONDecodeError" [] := by
  refine ⟨rfl, rfl, fun st zs => rfl, ?_, rfl, rfl⟩
  intro entries h
  match entries with
  | [] => rfl
  | [(st, zs)] => simp at h
  | e₁ :: e₂ :: rest => rfl

/-- Concrete instantiation of `c5_input_validation`: an empty JSON object
(zero keys) makes scraper_single_page2.py print and exit. -/
theorem c5_input_validation_witness :
    main_load_sp2 "zipcode/AK.json" (.parsed []) =
      .exitMsg "JSON must contain exactly one state abbreviation as key" :=
  (c5_input_validation "zipcode/AK.json" []).2.2.2.1 [] (by decide)

/-! ### Report CSV (`__main__` of both scraper scripts) -/

/-- `report_file = f"{state_abbr}_scrape_report_{timestamp}.csv"`. -/
def report_file_name (st ts : String) : String :=
  st ++ "_scrape_report_" ++ ts ++ ".csv"

/-- `fieldnames` of the report `csv.DictWriter`. -/
def reportHeader : List String :=
  ["zip", "records", "file", "time_sec", "status", "attempts"]

/-- One `writer.writerow(row)` of the report loop, as the cells written. -/
def report_row_cells (r : ReportRow) : List String :=
  [r.zip, toString r.records, r.file, toString r.time_sec, r.status,
    toString r.attempts]

/-- The final `writer.writerow({...})`: the TOTAL summary row, with
`records` the sum of `r['records']` over `report_list`. -/
def report_total_row (rl : List ReportRow) (totalFile : String)
    (overall : Nat) : List String :=
  ["TOTAL", toString (rl.map ReportRow.records).sum, totalFile,
    toString overall, "completed", "-"]

/-- The full report CSV written by either script: header, one row per
`report_list` entry in order, then the TOTAL row.
(scraper_single_page2.py passes `"-"` as `totalFile`, car.com_updated.py
the state CSV path.) -/
def report_csv_rows (rl : List ReportRow) (totalFile : String)
    (overall : Nat) : List (List String) :=
  reportHeader :: (rl.map report_row_cells ++ [report_total_row rl totalFile overall])

/-- C6: the report CSV is named `<STATE>_scrape_report_<timestamp>.csv`,
every row of it has exactly the six columns
`zip, records, file, time_sec, status, attempts`, its first row is that
header, its final row has `zip = "TOTAL"`, and the TOTAL row's `records`
cell is the sum of the `records` values of all preceding per-ZIP rows. -/
theorem c6_report_csv (st ts totalFile : String) (rl : List ReportRow)
    (overall : Nat) :
    report_file_name st ts = st ++ "_scrape_report_" ++ ts ++ ".csv" ∧
    (∀ row ∈ report_csv_rows rl totalFile overall, row.length = 6) ∧
    (report_csv_rows rl totalFile overall).head? = some reportHeader ∧
    reportHeader = ["zip", "records", "file", "time_sec", "status", "attempts"] ∧
    (report_csv_rows rl totalFile overall).getLast? =
      some (report_total_row rl totalFile overall) ∧
    (report_total_row rl totalFile overall).head? = some "TOTAL" ∧
    (report_total_row rl totalFile overall).get? 1 =
      some (toString (rl.map ReportRow.records).sum) ∧
    (report_csv_rows rl totalFile overall).length = rl.length + 2 := by
  refine ⟨rfl, ?_, rfl, rfl, ?_, rfl, rfl, ?_⟩
  · intro row hrow
    rcases List.mem_cons.mp hrow with rfl | hrow
    · rfl
    rcases List.mem_append.mp hrow with hrow | hrow
    · obtain ⟨r, _, rfl⟩ := List.mem_map.mp hrow
      rfl
    · rcases List.mem_singleton.mp hrow with rfl
      rfl
  · show (reportHeader :: (rl.map report_row_cells ++ [_])).getLast? = _
    rw [← List.cons_append, List.getLast?_concat]
  · simp [report_csv_rows]

/-! ### Dealer-data CSV output (C7) -/

/-- One dealer record as assembled inside the dealer-card loop of either
scraper: business name, joined phone string, address. -/
structure DealerRec where
  name : String
  phone : String
  address : String
deriving DecidableEq, Repr

/-- The per-ZIP CSV written by `scrape_zip` in scraper_single_page2.py:
`writer.writerow(["Business Name", "Phone(s)", "Address"])` then
`writer.writerows(all_dealers)`. -/
def sp2_csv_header : List String := ["Business Name", "Phone(s)", "Address"]

/-- Rows of the per-ZIP CSV of scraper_single_page2.py. -/
def sp2_csv_file (dealers : List DealerRec) : List (List String) :=
  sp2_csv_header :: dealers.map fun d => [d.name, d.phone, d.address]

/-- Header of the state CSV of car.com_updated.py. -/
def upd_csv_header : List String := ["Zip", "Business Name", "Phone(s)", "Address"]

/-- One `batch_data.append([zip_code, name, phone_str, address])` row of
`scrape_zip_batch` in car.com_updated.py. -/
def upd_row (zip : String) (d : DealerRec) : List String :=
  [zip, d.name, d.phone, d.address]

/-- The final CSV write of `__main__` in car.com_updated.py: the file is
opened in append mode and the header is written only when the file is new
(`os.path.getsize(output_file) == 0 if os.path.exists(output_file) else
True`), then `writer.writerows(all_data)`. -/
def upd_csv_write (fileExists : Bool) (size : Nat)
    (allData : List (List String)) : List (List String) :=
  (if (if fileExists then size == 0 else true) then [upd_csv_header] else [])
    ++ allData

/-- C7: for the ZIP-driven scrapers the dealer-data CSV lands under
`USA/<STATE>/`, named `<STATE>_<zip>.csv` (scraper_single_page2.py) or
`<STATE>_dealers.csv` (car.com_updated.py); the first file's rows have
exactly the columns `Business Name, Phone(s), Address` and the second's
header is the same prefixed with a `Zip` column. -/
theorem c7_output_layout (st z zip : String) (dealers : List DealerRec)
    (d : DealerRec) (allData : List (List String)) :
    (∃ rest, sp2_output_file st z = "USA/" ++ st ++ "/" ++ rest ∧
      rest = st ++ "_" ++ z ++ ".csv") ∧
    (∃ rest, upd_output_file st = "USA/" ++ st ++ "/" ++ rest ∧
      rest = st ++ "_dealers.csv") ∧
    (sp2_csv_file dealers).head? = some sp2_csv_header ∧
    sp2_csv_header = ["Business Name", "Phone(s)", "Address"] ∧
    upd_csv_header = "Zip" :: sp2_csv_header ∧
    (upd_csv_write false 0 allData).head? = some upd_csv_header ∧
    (∀ row ∈ (sp2_csv_file dealers).tail, row.length = sp2_csv_header.length) ∧
    (upd_row zip d).length = upd_csv_header.length := by
  refine ⟨⟨_, rfl, rfl⟩, ⟨_, rfl, rfl⟩, rfl, rfl, rfl, rfl, ?_, rfl⟩
  intro row hrow
  simp only [sp2_csv_file, List.tail_cons, List.mem_map] at hrow
  obtain ⟨r, _, rfl⟩ := hrow
  rfl

/-! ### In-memory accumulation and the single final write (car.com_updated.py)

`scrape_worker` repeatedly takes up to `BATCH_SIZE` ZIP codes from the
queue and calls `scrape_zip_batch`, which appends one row per dealer card
to `batch_data` and finally extends the shared `all_data`; `__main__`
writes `all_data` to the state CSV once, after every thread has joined.
`env z` is the list of dealer cards the browser finds for ZIP `z`
(ZIP codes whose every attempt fails contribute no rows).  The model
follows a single worker, which consumes the whole queue; the fuel
argument only bounds the number of `while` iterations and
`queue.length` always suffices because each iteration removes at least
one ZIP code. -/

/-- Rows appended for one batch of ZIP codes by `scrape_zip_batch`. -/
def scrape_zip_batch_data (env : String → List DealerRec)
    (zips : List String) : List (List String) :=
  zips.flatMap fun z => (env z).map (upd_row z)

/-- Running totals of scraped-but-not-yet-written records, observed right
after each ZIP code's rows are appended, starting from `base` previously
accumulated records.  No write happens anywhere in the scraping phase. -/
def zip_counts (env : String → List DealerRec) :
    List String → Nat → List Nat
  | [], _ => []
  | z :: zs, base =>
    (base + (env z).length) :: zip_counts env zs (base + (env z).length)

/-- The `while not queue.empty()` loop of `scrape_worker`: take up to
`BATCH_SIZE` ZIP codes, scrape them, extend `all_data`, repeat.  Returns
the trace of unwritten-record counts after each ZIP code. -/
def worker_trace (env : String → List DealerRec) :
    Nat → Nat → List String → List Nat
  | 0, _, _ => []
  | _fuel + 1, _acc, [] => []
  | fuel + 1, acc, q@(_ :: _) =>
    zip_counts env (q.take BATCH_SIZE) acc ++
      worker_trace env fuel
        (acc + (scrape_zip_batch_data env (q.take BATCH_SIZE)).length)
        (q.drop BATCH_SIZE)

/-- Unwritten-record counts over a whole run of car.com_updated.py for one
state: the single CSV write happens only after the loop ends. -/
def run_trace (env : String → List DealerRec) (queue : List String) :
    List Nat :=
  worker_trace env queue.length 0 queue

/-- `all_data` as accumulated by the worker loop. -/
def worker_all_data (env : String → List DealerRec) :
    Nat → List (List String) → List String → List (List String)
  | 0, acc, _ => acc
  | _fuel + 1, acc, [] => acc
  | fuel + 1, acc, q@(_ :: _) =>
    worker_all_data env fuel
      (acc ++ scrape_zip_batch_data env (q.take BATCH_SIZE)) (q.drop BATCH_SIZE)

/-- The rows handed to the single final `writer.writerows(all_data)`. -/
def run_all_data (env : String → List DealerRec) (queue : List String) :
    List (List String) :=
  worker_all_data env queue.length [] queue

/-- The successive batches of ZIP codes handed to `scrape_zip_batch`. -/
def worker_batches : Nat → List String → List (List String)
  | 0, _ => []
  | _fuel + 1, [] => []
  | fuel + 1, q@(_ :: _) =>
    q.take BATCH_SIZE :: worker_batches fuel (q.drop BATCH_SIZE)

theorem zip_counts_append (env : String → List DealerRec) (a b : List String)
    (base : Nat) :
    zip_counts env (a ++ b) base =
      zip_counts env a base ++
        zip_counts env b (base + (scrape_zip_batch_data env a).length) := by
  induction a generalizing base with
  | nil => simp [zip_counts, scrape_zip_batch_data]
  | cons z zs ih =>
    have hlen : (scrape_zip_batch_data env (z :: zs)).length =
        (env z).length + (scrape_zip_batch_data env zs).length := by
      simp [scrape_zip_batch_data]
    have harg : base + (scrape_zip_batch_data env (z :: zs)).length =
        base + (env z).length + (scrape_zip_batch_data env zs).length := by
      omega
    rw [List.cons_append,
      show zip_counts env (z :: (zs ++ b)) base =
        (base + (env z).length) :: zip_counts env (zs ++ b) (base + (env z).length) from rfl,
      show zip_counts env (z :: zs) base =
        (base + (env z).length) :: zip_counts env zs (base + (env z).length) from rfl,
      List.cons_append, ih, harg]

theorem scrape_zip_batch_data_append (env : String → List DealerRec)
    (a b : List String) :
    scrape_zip_batch_data env (a ++ b) =
      scrape_zip_batch_data env a ++ scrape_zip_batch_data env b := by
  simp [scrape_zip_batch_data]

theorem worker_trace_eq (env : String → List DealerRec) :
    ∀ fuel (q : List String) (base : Nat), q.length ≤ fuel →
      worker_trace env fuel base q = zip_counts env q base := by
  intro fuel
  induction fuel with
  | zero =>
    intro q base hq
    have : q = [] := List.length_eq_zero.mp (Nat.le_zero.mp hq)
    subst this
    rfl
  | succ f ih =>
    intro q base hq
    match q with
    | [] => rfl
    | z :: zs =>
      rw [show worker_trace env (f + 1) base (z :: zs) =
          zip_counts env ((z :: zs).take BATCH_SIZE) base ++
            worker_trace env f
              (base + (scrape_zip_batch_data env ((z :: zs).take BATCH_SIZE)).length)
              ((z :: zs).drop BATCH_SIZE) from rfl]
      rw [ih ((z :: zs).drop BATCH_SIZE) _ (by
        have hB : BATCH_SIZE = 20 := rfl
        simp only [List.length_drop, List.length_cons]
        simp only [List.length_cons] at hq
        omega)]
      rw [← zip_counts_append]
      rw [List.take_append_drop]

theorem worker_all_data_eq (env : String → List DealerRec) :
    ∀ fuel (q : List String) (acc : List (List String)), q.length ≤ fuel →
      worker_all_data env fuel acc q = acc ++ scrape_zip_batch_data env q := by
  intro fuel
  induction fuel with
  | zero =>
    intro q acc hq
    have : q = [] := List.length_eq_zero.mp (Nat.le_zero.mp hq)
    subst this
    simp [worker_all_data, scrape_zip_batch_data]
  | succ f ih =>
    intro q acc hq
    match q with
    | [] => simp [worker_all_data, scrape_zip_batch_data]
    | z :: zs =>
      rw [show worker_all_data env (f + 1) acc (z :: zs) =
          worker_all_data env f
            (acc ++ scrape_zip_batch_data env ((z :: zs).take BATCH_SIZE))
            ((z :: zs).drop BATCH_SIZE) from rfl]
      rw [ih ((z :: zs).drop BATCH_SIZE) _ (by
        have hB : BATCH_SIZE = 20 := rfl
        simp only [List.length_drop, List.length_cons]
        simp only [List.length_cons] at hq
        omega)]
      rw [List.append_assoc, ← scrape_zip_batch_data_append,
        List.take_append_drop]

/-- C2 as stated is false: a single ZIP code yielding 21 dealer records
(the page can hold up to 200) already leaves 21 accumulated records
unwritten, exceeding `BATCH_SIZE = 20`; no intermediate CSV write exists
in car.com_updated.py. -/
theorem c2_counterexample :
    BATCH_SIZE < 21 ∧
    21 ∈ run_trace (fun _ => List.replicate 21 ⟨"n", "p", "a"⟩) ["85001"] := by
  decide

/-- C2 (amended): car.com_updated.py accumulates every scraped record in
memory for the whole run and writes the CSV exactly once, after all
workers finish: at each point of execution the number of scraped records
not yet written equals the total number of records scraped so far (it is
not bounded by `BATCH_SIZE`), the single final write receives all
accumulated rows, and `BATCH_SIZE` only bounds how many ZIP codes a
worker takes from the queue per `scrape_zip_batch` call. -/
theorem c2_single_final_write (env : String → List DealerRec)
    (queue : List String) :
    run_trace env queue = zip_counts env queue 0 ∧
    run_all_data env queue = scrape_zip_batch_data env queue ∧
    (∀ b ∈ worker_batches queue.length queue, b.length ≤ BATCH_SIZE) := by
  refine ⟨worker_trace_eq env queue.length queue 0 le_rfl, ?_, ?_⟩
  · have h := worker_all_data_eq env queue.length queue [] le_rfl
    rw [List.nil_append] at h
    exact h
  · have hgen : ∀ fuel (q : List String), ∀ b ∈ worker_batches fuel q,
        b.length ≤ BATCH_SIZE := by
      intro fuel
      induction fuel with
      | zero => intro q b hb; simp [worker_batches] at hb
      | succ f ih =>
        intro q b hb
        match q with
        | [] => simp [worker_batches] at hb
        | z :: zs =>
          rcases List.mem_cons.mp hb with rfl | hb
          · exact List.length_take_le BATCH_SIZE (z :: zs)
          · exact ih _ b hb
    exact hgen queue.length queue

/-! ### Phone-presence bookkeeping (merge.py, merge_unique.py, remove_null.py) -/

/-- `has_phone` as defined identically in merge.py, merge_unique.py and
remove_null.py: `if pd.isna(x): return False;
val = str(x).strip().upper(); return val != "" and val != "N/A"`.
An NA cell is `none`, any other cell the string pandas read. -/
def has_phone (x : Option String) : Bool :=
  match x with
  | none => false
  | some s =>
    let val := pyUpper (pyStrip s)
    (val != "") && (val != "N/A")

/-- One report row of merge.py / merge_unique.py / remove_null.py for a
`Phone(s)` column: `(rows, with_phone, without_phone)` with
`with_phone = df['Phone(s)'].apply(has_phone).sum()` and
`without_phone = row_count - with_phone`.  The same construction serves
the per-file rows and the TOTAL row (applied to the concatenated or
cleaned column). -/
def phone_report_counts (phoneCol : List (Option String)) : Nat × Nat × Nat :=
  (phoneCol.length, (phoneCol.filter has_phone).length,
    phoneCol.length - (phoneCol.filter has_phone).length)

theorem pyUpper_eq_empty_iff (t : String) : pyUpper t = "" ↔ t = "" := by
  constructor
  · intro h
    have hd : t.data.map Char.toUpper = ([] : List Char) := congrArg String.data h
    exact String.ext (List.map_eq_nil_iff.mp hd)
  · intro h
    subst h
    rfl

/-- C9: `has_phone` returns `False` exactly when the cell is NA, or strips
to the empty string, or strips and upper-cases to `"N/A"`; consequently in
every report row these scripts produce,
`with_phone + without_phone = rows`. -/
theorem c9_has_phone (x : Option String) (phoneCol : List (Option String)) :
    (has_phone x = false ↔
      x = none ∨ ∃ s, x = some s ∧
        (pyStrip s = "" ∨ pyUpper (pyStrip s) = "N/A")) ∧
    (phone_report_counts phoneCol).2.1 + (phone_report_counts phoneCol).2.2 =
      (phone_report_counts phoneCol).1 := by
  constructor
  · cases x with
    | none => simp [has_phone]
    | some s =>
      have hiff : has_phone (some s) = false ↔
          (pyUpper (pyStrip s) = "" ∨ pyUpper (pyStrip s) = "N/A") := by
        constructor
        · intro h
          by_contra hc
          push_neg at hc
          have h1 : (pyUpper (pyStrip s) != "") = true := bne_iff_ne.mpr hc.1
          have h2 : (pyUpper (pyStrip s) != "N/A") = true := bne_iff_ne.mpr hc.2
          simp [has_phone, h1, h2] at h
        · intro h
          rcases h with h | h <;> simp [has_phone, h]
      rw [hiff]
      constructor
      · rintro (h | h)
        · exact Or.inr ⟨s, rfl, Or.inl ((pyUpper_eq_empty_iff (pyStrip s)).mp h)⟩
        · exact Or.inr ⟨s, rfl, Or.inr h⟩
      · rintro (h | ⟨s2, hs2, h | h⟩)
        · exact absurd h (by simp)
        · cases Option.some.inj hs2
          exact Or.inl ((pyUpper_eq_empty_iff (pyStrip s)).mpr h)
        · cases Option.some.inj hs2
          exact Or.inr h
  · have hle : (phoneCol.filter has_phone).length ≤ phoneCol.length :=
      List.length_filter_le has_phone phoneCol
    simp only [phone_report_counts]
    omega

/-- Concrete instantiation of `c9_has_phone`: `" n/a "` has no phone,
`"555-1234"` has one, and a sample report row balances. -/
theorem c9_has_phone_witness :
    has_phone (some " n/a ") = false ∧
    (phone_report_counts [some "555-1234", some " n/a ", none]).2.1 +
        (phone_report_counts [some "555-1234", some " n/a ", none]).2.2 =
      (phone_report_counts [some "555-1234", some " n/a ", none]).1 := by
  constructor
  · exact (c9_has_phone (some " n/a ") []).1.mpr
      (Or.inr ⟨" n/a ", rfl, Or.inr (by decide)⟩)
  · exact (c9_has_phone none [some "555-1234", some " n/a ", none]).2

/-! ### Phone-string construction (C10)

scraper_single_page2.py deduplicates phone texts in first-seen order and
joins them; car.com_updated.py joins `set(phones)`, whose iteration order
is a property of the Python runtime (hash randomisation differs between
processes), not of the phone list.  The runtime's set iteration order is
abstracted as a function `setEnum` returning the distinct elements of a
list in the order the `set` yields them. -/

/-- The ordered dedup loop of `scrape_zip` in scraper_single_page2.py:
`for p in phone_elements: ph = p.text.strip();
if ph and ph not in phones: phones.append(ph)`. -/
def phones_sp2 (texts : List String) : List String :=
  texts.foldl
    (fun phones p =>
      let ph := pyStrip p
      if ph ≠ "" ∧ ph ∉ phones then phones ++ [ph] else phones)
    []

/-- `phone_str = "; ".join(phones) if phones else "N/A"` in
scraper_single_page2.py. -/
def phone_str_sp2 (texts : List String) : String :=
  let ps := phones_sp2 texts
  if ps = [] then "N/A" else String.intercalate "; " ps

/-- `phones = [p.text.strip() for p in phone_elements if p.text.strip()]`
in car.com_updated.py. -/
def phones_upd (texts : List String) : List String :=
  texts.filterMap fun p =>
    let ph := pyStrip p
    if ph = "" then none else some ph

/-- `phone_str = "; ".join(set(phones)) if phones else "N/A"` in
car.com_updated.py, with the runtime's `set` iteration order passed in as
`setEnum`. -/
def phone_str_upd (setEnum : List String → List String)
    (texts : List String) : String :=
  let ps := phones_upd texts
  if ps = [] then "N/A" else String.intercalate "; " (setEnum ps)

/-- The record-building step of `scrape_zip` in scraper_single_page2.py
builds no set, so it is the same function for every runtime set order;
the environment parameter records that dependence is possible in
principle. -/
def sp2_record (_setEnum : List String → List String)
    (texts : List String) : String :=
  phone_str_sp2 texts

/-- A function is a possible `set` iteration order if it enumerates
exactly the distinct elements of its input, each once. -/
def validSetEnum (e : List String → List String) : Prop :=
  ∀ l, (e l).Nodup ∧ ∀ x, x ∈ e l ↔ x ∈ l

/-- One possible set order: first occurrences first. -/
def setEnumA : List String → List String := fun l => l.dedup

/-- Another possible set order: the same elements reversed. -/
def setEnumB : List String → List String := fun l => l.dedup.reverse

theorem validSetEnum_A : validSetEnum setEnumA := by
  intro l
  exact ⟨l.nodup_dedup, fun x => List.mem_dedup⟩

theorem validSetEnum_B : validSetEnum setEnumB := by
  intro l
  refine ⟨List.nodup_reverse.mpr l.nodup_dedup, fun x => ?_⟩
  show x ∈ l.dedup.reverse ↔ x ∈ l
  rw [List.mem_reverse, List.mem_dedup]

/-- C10 as stated is false for car.com_updated.py: with the fixed phone
texts `["555-1111", "555-2222"]`, two possible runtime set orders (both
valid enumerations of the same two distinct phones) produce different
`Phone(s)` strings. -/
theorem c10_counterexample :
    validSetEnum setEnumA ∧ validSetEnum setEnumB ∧
    phone_str_upd setEnumA ["555-1111", "555-2222"] ≠
      phone_str_upd setEnumB ["555-1111", "555-2222"] := by
  refine ⟨validSetEnum_A, validSetEnum_B, ?_⟩
  decide

theorem phones_sp2_go (texts : List String) :
    ∀ acc : List String, acc.Nodup →
      (texts.foldl
        (fun phones p =>
          let ph := pyStrip p
          if ph ≠ "" ∧ ph ∉ phones then phones ++ [ph] else phones)
        acc).Nodup ∧
      ∀ x, x ∈ texts.foldl
          (fun phones p =>
            let ph := pyStrip p
            if ph ≠ "" ∧ ph ∉ phones then phones ++ [ph] else phones)
          acc ↔
        x ∈ acc ∨ (x ≠ "" ∧ x ∈ texts.map pyStrip) := by
  induction texts with
  | nil =>
    intro acc hacc
    simp [hacc]
  | cons p rest ih =>
    intro acc hacc
    by_cases hc : pyStrip p ≠ "" ∧ pyStrip p ∉ acc
    · have hstep : (acc ++ [pyStrip p]).Nodup := by
        simp [List.nodup_append, hacc, hc.2]
      have h := ih (acc ++ [pyStrip p]) hstep
      refine ⟨?_, ?_⟩
      · simpa [List.foldl_cons, hc] using h.1
      · intro x
        have hx := h.2 x
        simp only [List.foldl_cons, if_pos hc]
        rw [hx]
        simp only [List.mem_append, List.mem_cons, List.not_mem_nil,
          or_false, List.map_cons]
        constructor
        · rintro ((hxa | rfl) | ⟨hne, hmem⟩)
          · exact Or.inl hxa
          · exact Or.inr ⟨hc.1, Or.inl rfl⟩
          · exact Or.inr ⟨hne, Or.inr hmem⟩
        · rintro (hxa | ⟨hne, rfl | hmem⟩)
          · exact Or.inl (Or.inl hxa)
          · exact Or.inl (Or.inr rfl)
          · exact Or.inr ⟨hne, hmem⟩
    · have h := ih acc hacc
      refine ⟨?_, ?_⟩
      · simpa [List.foldl_cons, hc] using h.1
      · intro x
        have hx := h.2 x
        simp only [List.foldl_cons, if_neg hc]
        rw [hx]
        simp only [List.map_cons, List.mem_cons]
        push_neg at hc
        constructor
        · rintro (hxa | ⟨hne, hmem⟩)
          · exact Or.inl hxa
          · exact Or.inr ⟨hne, Or.inr hmem⟩
        · rintro (hxa | ⟨hne, rfl | hmem⟩)
          · exact Or.inl hxa
          · exact Or.inl (hc hne)
          · exact Or.inr ⟨hne, hmem⟩

theorem phones_upd_mem (texts : List String) (x : String) :
    x ∈ phones_upd texts ↔ x ≠ "" ∧ x ∈ texts.map pyStrip := by
  simp only [phones_upd, List.mem_filterMap, List.mem_map]
  constructor
  · rintro ⟨p, hp, hx⟩
    by_cases h : pyStrip p = ""
    · simp [h] at hx
    · simp only [if_neg h, Option.some.injEq] at hx
      subst hx
      exact ⟨h, p, hp, rfl⟩
  · rintro ⟨hne, p, hp, rfl⟩
    refine ⟨p, hp, ?_⟩
    rw [if_neg hne]

/-- C10 (amended): the `Phone(s)` field of scraper_single_page2.py is a
deterministic function of the phone texts — the record builder consults no
set order, its phone list is duplicate-free and holds exactly the nonblank
stripped phone texts; in car.com_updated.py the joined string depends on
the runtime's set iteration order (see the counterexample), but any two
valid orders yield permutations of the same distinct phones, so only the
order within the string varies between runs, never the set of phones. -/
theorem c10_phone_determinism (e₁ e₂ : List String → List String)
    (texts : List String) (h₁ : validSetEnum e₁) (h₂ : validSetEnum e₂) :
    sp2_record e₁ texts = sp2_record e₂ texts ∧
    (phones_sp2 texts).Nodup ∧
    (∀ x, x ∈ phones_sp2 texts ↔ x ∈ phones_upd texts) ∧
    (e₁ (phones_upd texts)).Perm (e₂ (phones_upd texts)) := by
  have hgo := phones_sp2_go texts [] List.nodup_nil
  refine ⟨rfl, hgo.1, ?_, ?_⟩
  · intro x
    have hx : x ∈ phones_sp2 texts ↔
        x ∈ ([] : List String) ∨ x ≠ "" ∧ x ∈ texts.map pyStrip := hgo.2 x
    rw [hx, phones_upd_mem]
    simp
  · rw [List.perm_ext_iff_of_nodup (h₁ (phones_upd texts)).1
      (h₂ (phones_upd texts)).1]
    intro a
    rw [(h₁ (phones_upd texts)).2 a, (h₂ (phones_upd texts)).2 a]

/-- Concrete instantiation of `c10_phone_determinism`: for two concrete
set orders the scraper_single_page2.py record agrees, and the two
car.com_updated.py phone enumerations are permutations of each other. -/
theorem c10_phone_determinism_witness :
    sp2_record setEnumA [" 555-1111", "555-1111"] =
      sp2_record setEnumB [" 555-1111", "555-1111"] ∧
    (setEnumA (phones_upd ["555-1111", "555-2222"])).Perm
      (setEnumB (phones_upd ["555-1111", "555-2222"])) := by
  constructor
  · exact (c10_phone_determinism setEnumA setEnumB [" 555-1111", "555-1111"]
      validSetEnum_A validSetEnum_B).1
  · exact (c10_phone_determinism setEnumA setEnumB ["555-1111", "555-2222"]
      validSetEnum_A validSetEnum_B).2.2.2

/-! ### The cleaning tool's z-score outlier removal (blackbox.py)

A dataframe is a list of column names, a per-column numeric-dtype flag and
a list of rows of cells.  A cell of a numeric column is `num (some x)` or
`num none` (NaN); other columns hold text.  Exact rationals stand in for
pandas floats.  `col.std(skipna=True)` uses the sample variance
(`ddof = 1`), which is NaN (`none` here) when fewer than two non-NaN
values exist; the comparison `zscores.abs().le(z)` is decided through the
square of the standard deviation (see `keepCell`). -/

inductive Cell
  | num (x : Option ℚ)
  | txt (s : String)
deriving DecidableEq, Repr

structure DFrame where
  colNames : List String
  colNumeric : List Bool
  rows : List (List Cell)
deriving DecidableEq, Repr

/-- Position of column `c`, `none` when `c not in df.columns`. -/
def colIdx (df : DFrame) (c : String) : Option Nat :=
  df.colNames.findIdx? fun n => n == c

/-- `pd.api.types.is_numeric_dtype(df[c])`. -/
def is_numeric_dtype (df : DFrame) (c : String) : Bool :=
  match colIdx df c with
  | some i => df.colNumeric.getD i false
  | none => false

/-- `cols = [c for c in cols if c in df.columns and
pd.api.types.is_numeric_dtype(df[c])]` of `remove_outliers_z`. -/
def selectCols (df : DFrame) (cols : List String) : List String :=
  cols.filter fun c => (colIdx df c).isSome && is_numeric_dtype df c

/-- Numeric value of a cell; a text cell of a numeric column never occurs
but reads as NaN. -/
def cellNum : Cell → Option ℚ
  | .num x => x
  | .txt _ => none

/-- The value of column `c` in row `r`. -/
def cellAt (df : DFrame) (c : String) (r : List Cell) : Option ℚ :=
  match colIdx df c with
  | some i => cellNum (r.getD i (.num none))
  | none => none

/-- The column `df[c]` as a list of optional values, row order. -/
def colVals (df : DFrame) (c : String) : List (Option ℚ) :=
  df.rows.map (cellAt df c)

/-- `col.mean(skipna=True)`: NaN over an all-NaN column. -/
def colMean (vs : List (Option ℚ)) : Option ℚ :=
  let xs := vs.filterMap id
  if xs.length = 0 then none else some (xs.sum / xs.length)

/-- The square of `col.std(skipna=True)` (sample variance, `ddof = 1`):
`none` exactly when `std` is NaN (fewer than two non-NaN values). -/
def colVarS (vs : List (Option ℚ)) : Option ℚ :=
  let xs := vs.filterMap id
  if xs.length < 2 then none
  else
    let μ := xs.sum / xs.length
    some ((xs.map fun x => (x - μ)^2).sum / ((xs.length : ℚ) - 1))

/-- `zscores.abs().le(z) | col.isna()` for one cell, with `v = σ²`: for
`σ = √v > 0` the test `|(x − μ)/σ| ≤ z` is equivalent to
`0 ≤ z ∧ (x − μ)² ≤ z²·v`, which avoids the irrational square root.
NaN cells always pass (`col.isna()`). -/
def keepCell (μ v z : ℚ) : Option ℚ → Bool
  | none => true
  | some x => decide (0 ≤ z) && decide ((x - μ)^2 ≤ z^2 * v)

/-- One iteration of the `for c in cols` loop of `remove_outliers_z`:
compute `mu, sigma`; when sigma is truthy, non-NaN and nonzero,
`mask &= zscores.abs().le(z) | col.isna()`, else leave the mask alone. -/
def applyCol (df : DFrame) (z : ℚ) (mask : List Bool) (c : String) :
    List Bool :=
  let vs := colVals df c
  match colVarS vs with
  | some v =>
    if v ≠ 0 then
      mask.zipWith (fun m cell => m && keepCell ((colMean vs).getD 0) v z cell) vs
    else mask
  | none => mask

/-- `df[mask]`: the rows at the mask's `True` positions. -/
def maskFilter {α : Type} (mask : List Bool) (rows : List α) : List α :=
  ((mask.zip rows).filter fun p => p.1).map fun p => p.2

/-- `remove_outliers_z(df, cols, z)` of blackbox.py. -/
def remove_outliers_z (df : DFrame) (cols : List String) (z : ℚ) : DFrame :=
  let sel := selectCols df cols
  if sel = [] then df
  else
    let mask := sel.foldl (applyCol df z) (List.replicate df.rows.length true)
    ⟨df.colNames, df.colNumeric, maskFilter mask df.rows⟩

/-- Row-keep test of one selected column, as the claim states it: a
qualifying column (finite nonzero standard deviation) must hold a NaN or a
value within `z` standard deviations of the mean; a non-qualifying column
never drops a row. -/
def colKeep (df : DFrame) (z : ℚ) (c : String) (r : List Cell) : Bool :=
  match colVarS (colVals df c) with
  | some v =>
    if v ≠ 0 then
      keepCell ((colMean (colVals df c)).getD 0) v z (cellAt df c r)
    else true
  | none => true

/-- The claim's row predicate: keep a row iff no selected column that
exists, is numeric and has a finite nonzero standard deviation holds a
value more than `z` standard deviations from the column mean. -/
def keepRow_spec (df : DFrame) (cols : List String) (z : ℚ)
    (r : List Cell) : Bool :=
  (selectCols df cols).all fun c => colKeep df z c r

theorem applyCol_of_none (df : DFrame) (z : ℚ) (mask : List Bool)
    (c : String) (h : colVarS (colVals df c) = none) :
    applyCol df z mask c = mask := by
  simp [applyCol, h]

theorem applyCol_of_zero (df : DFrame) (z : ℚ) (mask : List Bool)
    (c : String) (h : colVarS (colVals df c) = some 0) :
    applyCol df z mask c = mask := by
  simp [applyCol, h]

theorem applyCol_of_some (df : DFrame) (z : ℚ) (mask : List Bool)
    (c : String) (v : ℚ) (h : colVarS (colVals df c) = some v)
    (hv : v ≠ 0) :
    applyCol df z mask c =
      mask.zipWith
        (fun m cell => m && keepCell ((colMean (colVals df c)).getD 0) v z cell)
        (colVals df c) := by
  simp [applyCol, h, hv]

theorem colKeep_of_none (df : DFrame) (z : ℚ) (c : String)
    (h : colVarS (colVals df c) = none) :
    colKeep df z c = fun _ => true := by
  funext r
  simp [colKeep, h]

theorem colKeep_of_zero (df : DFrame) (z : ℚ) (c : String)
    (h : colVarS (colVals df c) = some 0) :
    colKeep df z c = fun _ => true := by
  funext r
  simp [colKeep, h]

theorem colKeep_of_some (df : DFrame) (z : ℚ) (c : String) (v : ℚ)
    (h : colVarS (colVals df c) = some v) (hv : v ≠ 0) :
    colKeep df z c =
      fun r => keepCell ((colMean (colVals df c)).getD 0) v z (cellAt df c r) := by
  funext r
  simp [colKeep, h, hv]

theorem applyCol_map (df : DFrame) (z : ℚ) (F : List Cell → Bool) (c : String) :
    applyCol df z (df.rows.map F) c =
      df.rows.map fun r => F r && colKeep df z c r := by
  cases hv : colVarS (colVals df c) with
  | none =>
    rw [applyCol_of_none df z _ c hv, colKeep_of_none df z c hv]
    simp
  | some v =>
    by_cases hv0 : v = 0
    · subst hv0
      rw [applyCol_of_zero df z _ c hv, colKeep_of_zero df z c hv]
      simp
    · rw [applyCol_of_some df z _ c v hv hv0, colKeep_of_some df z c v hv hv0,
        show colVals df c = df.rows.map (cellAt df c) from rfl,
        List.zipWith_map, List.zipWith_same]

theorem foldl_applyCol (df : DFrame) (z : ℚ) (cs : List String)
    (F : List Cell → Bool) :
    cs.foldl (applyCol df z) (df.rows.map F) =
      df.rows.map fun r => F r && cs.all fun c => colKeep df z c r := by
  induction cs generalizing F with
  | nil => simp
  | cons c cs ih =>
    rw [List.foldl_cons, applyCol_map df z F c, ih]
    have harr : (fun r => (F r && colKeep df z c r) &&
        cs.all fun d => colKeep df z d r) =
        fun r => F r && (c :: cs).all fun d => colKeep df z d r := by
      funext r
      simp [Bool.and_assoc]
    rw [harr]

theorem maskFilter_map {α : Type} (f : α → Bool) (l : List α) :
    maskFilter (l.map f) l = l.filter f := by
  induction l with
  | nil => rfl
  | cons a l ih =>
    by_cases h : f a <;>
      simp [maskFilter, List.filter_cons, h] at ih ⊢ <;>
      exact ih

/-- C8: `remove_outliers_z` returns exactly the rows for which no selected
column that exists, is numeric, and has a finite nonzero standard
deviation contains a value more than `z` standard deviations from the
column mean; NaN values never cause a drop; when no selected column
exists and is numeric the dataframe is returned unchanged, and when no
selected column has a finite nonzero standard deviation the rows are
unchanged.  Column names and dtypes are always preserved. -/
theorem c8_remove_outliers (df : DFrame) (cols : List String) (z : ℚ) :
    (remove_outliers_z df cols z).rows =
      df.rows.filter (keepRow_spec df cols z) ∧
    (remove_outliers_z df cols z).colNames = df.colNames ∧
    (remove_outliers_z df cols z).colNumeric = df.colNumeric ∧
    (∀ μ v y, keepCell μ v y none = true) ∧
    (selectCols df cols = [] → remove_outliers_z df cols z = df) ∧
    ((∀ c ∈ selectCols df cols, ∀ v, colVarS (colVals df c) = some v → v = 0) →
      (remove_outliers_z df cols z).rows = df.rows) := by
  have key : (remove_outliers_z df cols z).rows =
      df.rows.filter (keepRow_spec df cols z) := by
    by_cases hsel : selectCols df cols = []
    · simp only [remove_outliers_z, if_pos hsel]
      have hspec : keepRow_spec df cols z = fun _ => true := by
        funext r
        simp [keepRow_spec, hsel]
      rw [hspec, List.filter_true]
    · simp only [remove_outliers_z, if_neg hsel]
      show maskFilter
        ((selectCols df cols).foldl (applyCol df z)
          (List.replicate df.rows.length true)) df.rows = _
      rw [show List.replicate df.rows.length true =
          df.rows.map fun _ => true from (List.map_const' df.rows true).symm,
        foldl_applyCol]
      have hspec : (fun r => true &&
          (selectCols df cols).all fun c => colKeep df z c r) =
          keepRow_spec df cols z := by
        funext r
        simp [keepRow_spec]
      rw [hspec, maskFilter_map]
  have hnames : (remove_outliers_z df cols z).colNames = df.colNames := by
    by_cases hsel : selectCols df cols = [] <;>
      simp [remove_outliers_z, hsel]
  have hflags : (remove_outliers_z df cols z).colNumeric = df.colNumeric := by
    by_cases hsel : selectCols df cols = [] <;>
      simp [remove_outliers_z, hsel]
  refine ⟨key, hnames, hflags, fun μ v y => rfl, ?_, ?_⟩
  · intro hsel
    simp [remove_outliers_z, hsel]
  · intro hno
    rw [key]
    rw [List.filter_eq_self]
    intro r _
    simp only [keepRow_spec, List.all_eq_true]
    intro c hc
    cases hv : colVarS (colVals df c) with
    | none => rw [colKeep_of_none df z c hv]
    | some v =>
      have hv0 : v = 0 := hno c hc v hv
      subst hv0
      rw [colKeep_of_zero df z c hv]

/-- Concrete instantiation of `c8_remove_outliers`: a dataframe whose only
requested column is non-numeric has no qualifying column and is returned
unchanged. -/
theorem c8_remove_outliers_witness :
    remove_outliers_z ⟨["b"], [false], [[Cell.txt "x"]]⟩ ["b"] 3 =
      ⟨["b"], [false], [[Cell.txt "x"]]⟩ :=
  (c8_remove_outliers ⟨["b"], [false], [[Cell.txt "x"]]⟩ ["b"] 3).2.2.2.2.1
    (by decide)
